import Mathlib

set_option maxRecDepth 100000

/-!
Verification of the Maritime repository's scraping/extraction pipeline
(backend/utils/WebScraper.py and backend/routes.py), as a shallow embedding.

Python strings are modelled as lists of characters where character-level
reasoning is needed (the content extractor) and as Lean strings elsewhere.
External effects (browser launches, page navigations, the language-model
call, the embedding provider, the vector store) are modelled as data
supplied by a World record: each field is the outcome that the external
service returns for the corresponding call in one scrape_url invocation.
-/

namespace Maritime

/-! ## Python string helpers

Models of the Python primitives used by WebScraper.extract_main_content:
str.split() with no arguments (split on runs of whitespace, dropping empty
fragments), str.strip(), and the separator.join of a list of strings.
-/

/-- The whitespace characters recognised by Python's str.split() and
str.strip() (ASCII subset). -/
def pyIsSpace (c : Char) : Bool :=
  c == ' ' || c == '\t' || c == '\n' || c == '\x0d' || c == '\x0b' || c == '\x0c'

/-- Emit the pending (reversed) accumulator of wordsAux as a completed word,
or nothing when the accumulator is empty. -/
def flushAcc (acc : List Char) : List (List Char) :=
  if acc = [] then [] else [acc.reverse]

/-- Worker for pyWords: scans the characters, accumulating the current word
in reverse in acc, emitting it at each whitespace character. -/
def wordsAux : List Char → List Char → List (List Char)
  | [], acc => flushAcc acc
  | c :: cs, acc =>
    if pyIsSpace c then flushAcc acc ++ wordsAux cs []
    else wordsAux cs (c :: acc)

/-- Python str.split() with no arguments: the maximal runs of
non-whitespace characters, in order. -/
def pyWords (l : List Char) : List (List Char) := wordsAux l []

/-- Python sep.join for sep a single space: join the fragments with one
space between consecutive fragments. -/
def joinSp : List (List Char) → List Char
  | [] => []
  | [w] => w
  | w :: x :: ws => w ++ ' ' :: joinSp (x :: ws)

/-- The composite Python idiom from WebScraper.py line 77,
space.join(text.split()): collapse every run of whitespace (newlines
included) to a single space and drop leading/trailing whitespace. -/
def collapseWS (l : List Char) : List Char := joinSp (pyWords l)

/-- Python str.strip(): drop leading and trailing whitespace. -/
def pyStrip (l : List Char) : List Char :=
  ((l.dropWhile pyIsSpace).reverse.dropWhile pyIsSpace).reverse

/-! ## The DOM model and the content extractor -/

/-- A parsed HTML DOM tree as produced by BeautifulSoup: a node is either a
text node or an element with a tag name and child nodes. -/
inductive Html where
  | txt (s : List Char)
  | elem (tag : String) (children : List Html)

/-- The tags removed (with their whole subtrees, via decompose) by
WebScraper.extract_main_content, line 70. -/
def removedTags : List String := ["style", "script", "header", "footer", "nav", "aside"]

mutual
/-- The text nodes of the DOM in document order, skipping every subtree
rooted at a tag in removedTags: the strings BeautifulSoup would yield
after the decompose loop of extract_main_content. -/
def texts : Html → List (List Char)
  | .txt s => [s]
  | .elem tag cs => if tag ∈ removedTags then [] else textsL cs
/-- texts mapped over a list of sibling nodes, concatenated in order. -/
def textsL : List Html → List (List Char)
  | [] => []
  | h :: t => texts h ++ textsL t
end

mutual
/-- All text nodes of the DOM in document order with no tag removal: the
strings used by the Selenium branch of scrape_url (lines 181-183), which
calls get_text on the unmodified soup. -/
def allTexts : Html → List (List Char)
  | .txt s => [s]
  | .elem _ cs => allTextsL cs
/-- allTexts mapped over a list of sibling nodes, concatenated in order. -/
def allTextsL : List Html → List (List Char)
  | [] => []
  | h :: t => allTexts h ++ allTextsL t
end

/-- BeautifulSoup's get_text with a single-space separator and strip set to
true, applied to a list of text fragments: strip each fragment, drop the
fragments that strip to nothing, and join the rest with single spaces. -/
def bsGetText (ts : List (List Char)) : List Char :=
  joinSp ((ts.map pyStrip).filter (fun w => !w.isEmpty))

/-- WebScraper.extract_main_content (lines 63-87), given the parsed DOM of
page.content(): remove the unwanted subtrees, take the remaining text with
get_text(separator-space, strip), collapse whitespace runs, and return the
empty string when the result is shorter than 200 characters. -/
def extract_main_content (dom : Html) : List Char :=
  let text := bsGetText (texts dom)
  let text := collapseWS text
  if text.length < 200 then [] else text

/-- The visible text of a DOM as the specification words it: remove every
subtree rooted at a removed tag, concatenate the remaining text nodes with
a single-space separator, and collapse every run of whitespace to a single
space. Written from the spec for comparison with extract_main_content. -/
def visibleText (dom : Html) : List Char :=
  collapseWS (joinSp (texts dom))

/-! ## Lemmas about the whitespace machinery -/

theorem wordsAux_allSpace (s : List Char) (hs : ∀ c ∈ s, pyIsSpace c) :
    ∀ acc, wordsAux s acc = flushAcc acc := by
  induction s with
  | nil => intro acc; rfl
  | cons c cs ih =>
    intro acc
    have hc : pyIsSpace c := hs c (by simp)
    have hcs : ∀ d ∈ cs, pyIsSpace d := fun d hd => hs d (by simp [hd])
    simp [wordsAux, hc, ih hcs, flushAcc]

theorem wordsAux_append_one_space (c : Char) (hc : pyIsSpace c) (a : List Char) :
    ∀ acc, wordsAux (a ++ [c]) acc = wordsAux a acc := by
  induction a with
  | nil => intro acc; simp [wordsAux, hc, flushAcc]
  | cons d a ih =>
    intro acc
    by_cases hd : pyIsSpace d <;> simp [wordsAux, hd, ih]

theorem wordsAux_append_sep (c : Char) (hc : pyIsSpace c) (a b : List Char) :
    ∀ acc, wordsAux (a ++ c :: b) acc = wordsAux (a ++ [c]) acc ++ wordsAux b [] := by
  induction a with
  | nil => intro acc; simp [wordsAux, hc, flushAcc]
  | cons d a ih =>
    intro acc
    by_cases hd : pyIsSpace d <;> simp [wordsAux, hd, ih]

theorem pyWords_sep (a b : List Char) :
    pyWords (a ++ ' ' :: b) = pyWords a ++ pyWords b := by
  unfold pyWords
  rw [wordsAux_append_sep ' ' (by decide) a b, wordsAux_append_one_space ' ' (by decide)]

theorem pyWords_joinSp : ∀ ts : List (List Char),
    pyWords (joinSp ts) = (ts.map pyWords).flatten
  | [] => rfl
  | [w] => by simp [joinSp]
  | w :: x :: ws => by
    rw [joinSp, pyWords_sep, pyWords_joinSp (x :: ws)]
    simp

theorem pyWords_dropWhile (l : List Char) :
    pyWords (l.dropWhile pyIsSpace) = pyWords l := by
  induction l with
  | nil => rfl
  | cons c cs ih =>
    by_cases hc : pyIsSpace c
    · rw [List.dropWhile_cons_of_pos hc, ih]
      simp [pyWords, wordsAux, hc, flushAcc]
    · rw [List.dropWhile_cons_of_neg (by simpa using hc)]

theorem wordsAux_append_allSpace (s : List Char) (hs : ∀ c ∈ s, pyIsSpace c)
    (m : List Char) : ∀ acc, wordsAux (m ++ s) acc = wordsAux m acc := by
  induction m with
  | nil => intro acc; simpa [wordsAux] using wordsAux_allSpace s hs acc
  | cons d m ih =>
    intro acc
    by_cases hd : pyIsSpace d <;> simp [wordsAux, hd, ih]

theorem mem_takeWhile_space {l : List Char} {c : Char}
    (h : c ∈ l.takeWhile pyIsSpace) : pyIsSpace c := by
  induction l with
  | nil => simp [List.takeWhile] at h
  | cons d t ih =>
    rw [List.takeWhile_cons] at h
    by_cases hd : pyIsSpace d
    · simp [hd] at h
      rcases h with h | h
      · exact h ▸ hd
      · exact ih h
    · simp [hd] at h

theorem pyWords_pyStrip (l : List Char) : pyWords (pyStrip l) = pyWords l := by
  unfold pyStrip
  have hdecomp : l.dropWhile pyIsSpace =
      ((l.dropWhile pyIsSpace).reverse.dropWhile pyIsSpace).reverse ++
      ((l.dropWhile pyIsSpace).reverse.takeWhile pyIsSpace).reverse := by
    conv_lhs => rw [← List.reverse_reverse (l.dropWhile pyIsSpace)]
    conv_lhs =>
      rw [← List.takeWhile_append_dropWhile (p := pyIsSpace)
        (l := (l.dropWhile pyIsSpace).reverse)]
    rw [List.reverse_append]
  have hs : ∀ c ∈ ((l.dropWhile pyIsSpace).reverse.takeWhile pyIsSpace).reverse,
      pyIsSpace c := by
    intro c hc
    rw [List.mem_reverse] at hc
    exact mem_takeWhile_space hc
  calc pyWords (((l.dropWhile pyIsSpace).reverse.dropWhile pyIsSpace).reverse)
      = pyWords (((l.dropWhile pyIsSpace).reverse.dropWhile pyIsSpace).reverse ++
          ((l.dropWhile pyIsSpace).reverse.takeWhile pyIsSpace).reverse) :=
        (wordsAux_append_allSpace _ hs _ []).symm
    _ = pyWords (l.dropWhile pyIsSpace) := by rw [← hdecomp]
    _ = pyWords l := pyWords_dropWhile l

theorem pyWords_strip_empty {t : List Char} (h : pyStrip t = []) : pyWords t = [] := by
  rw [← pyWords_pyStrip, h]; rfl

theorem join_filter_strip (ts : List (List Char)) :
    ((((ts.map pyStrip).filter (fun w => !w.isEmpty)).map pyWords)).flatten =
      (ts.map pyWords).flatten := by
  induction ts with
  | nil => rfl
  | cons t ts ih =>
    simp only [List.map_cons, List.filter_cons]
    by_cases h : pyStrip t = []
    · have ht : pyWords t = [] := pyWords_strip_empty h
      rw [h]
      simp [ht, ih]
    · have hne : (pyStrip t).isEmpty = false := by
        simp [List.isEmpty_iff, h]
      simp [hne, ih, pyWords_pyStrip]

theorem pyWords_bsGetText (ts : List (List Char)) :
    pyWords (bsGetText ts) = pyWords (joinSp ts) := by
  unfold bsGetText
  rw [pyWords_joinSp, pyWords_joinSp]
  exact join_filter_strip ts

/-- The core extractor identity: what the code computes before its length
threshold (get_text with strip over the pruned DOM, then whitespace
collapse) is exactly the specification's visible text. -/
theorem collapse_getText_eq_visible (dom : Html) :
    collapseWS (bsGetText (texts dom)) = visibleText dom := by
  unfold visibleText collapseWS
  rw [pyWords_bsGetText]

/-- C5: for every HTML input whose visible text after removing all style,
script, header, footer, nav and aside subtrees is at least 200 characters,
extract_main_content returns exactly that text with every run of whitespace
(newlines included) collapsed to a single space, preserving character
content and order. -/
theorem extract_main_content_eq_visibleText (dom : Html)
    (h : 200 ≤ (visibleText dom).length) :
    extract_main_content dom = visibleText dom := by
  simp only [extract_main_content, collapse_getText_eq_visible]
  rw [if_neg (by omega)]

/-- A concrete page whose visible text is 200 characters long. -/
def richDom : Html :=
  .elem "html" [.elem "script" [.txt "var x 1".toList],
    .elem "body" [.txt (List.replicate 200 'a')]]

/-- Witness for C5 at a concrete page with 200 visible characters. -/
theorem extract_main_content_eq_visibleText_witness :
    200 ≤ (visibleText richDom).length ∧
      extract_main_content richDom = visibleText richDom :=
  ⟨by decide, extract_main_content_eq_visibleText richDom (by decide)⟩

/-- C6: for every HTML input whose visible text after tag removal has fewer
than 200 characters — in particular any input containing only script, style
and nav elements with no other text — extract_main_content returns the
empty string. -/
theorem extract_main_content_short (dom : Html)
    (h : (visibleText dom).length < 200) : extract_main_content dom = [] := by
  simp only [extract_main_content, collapse_getText_eq_visible]
  rw [if_pos h]

/-- A concrete page containing only script, style and nav elements and no
other text. -/
def chromeOnlyDom : Html :=
  .elem "html" [.elem "script" [.txt "var y 2".toList],
    .elem "style" [.txt "body color red".toList],
    .elem "nav" [.txt "Home About Contact".toList]]

/-- Witness for C6 at a page made only of script, style and nav elements:
its visible text is empty, hence under the threshold, and the extractor
returns the empty string. -/
theorem extract_main_content_short_witness :
    (visibleText chromeOnlyDom).length < 200 ∧
      extract_main_content chromeOnlyDom = [] :=
  ⟨by decide, extract_main_content_short chromeOnlyDom (by decide)⟩

example : visibleText chromeOnlyDom = [] := by decide
example : extract_main_content (.txt "  a   b  \n c ".toList) = [] := by decide
example : visibleText (.txt "  a   b  \n c ".toList) = "a b c".toList := by decide

/-! ## JSON values and the summarizer (process_with_llm) -/

/-- A JSON value as produced by Python's json.loads on the language-model
response string. -/
inductive Json where
  | str (s : String)
  | num (n : Int)
  | bool (b : Bool)
  | null
  | arr (elems : List Json)
  | obj (fields : List (String × Json))

/-- Key lookup in a JSON object; none on non-objects or absent keys. -/
def lookupJ (j : Json) (k : String) : Option Json :=
  match j with
  | .obj kvs => kvs.lookup k
  | _ => none

/-- Whether a JSON value is an object with the given top-level key. -/
def hasKeyB (j : Json) (k : String) : Bool :=
  match j with
  | .obj kvs => kvs.any (fun kv => kv.1 == k)
  | _ => false

/-- Boolean list-prefix test on character lists. -/
def listPrefixOf : List Char → List Char → Bool
  | [], _ => true
  | _ :: _, [] => false
  | a :: as, b :: bs => a == b && listPrefixOf as bs

/-- Boolean substring test: does the second list contain the first as a
contiguous sublist? (Python's membership test for strings.) -/
def hasSub (need : List Char) : List Char → Bool
  | [] => need.isEmpty
  | c :: t => listPrefixOf need (c :: t) || hasSub need t

/-- Python's membership test (key in j), as applied to the parsed
language-model response in WebScraper.py line 138: key lookup on dicts,
element equality on lists, substring test on strings; on numbers, booleans
and None the test raises TypeError, modelled as the error case carrying the
exception message. -/
def pyIn (key : String) : Json → Except String Bool
  | .obj kvs => .ok (kvs.any (fun kv => kv.1 == key))
  | .arr es => .ok (es.any (fun e => match e with | .str s => s == key | _ => false))
  | .str s => .ok (hasSub key.toList s.toList)
  | .num _ => .error "argument of type 'int' is not iterable"
  | .bool _ => .error "argument of type 'bool' is not iterable"
  | .null => .error "argument of type 'NoneType' is not iterable"

/-- The outcome of the one chat-completion call in process_with_llm: either
a transport error (the exception message), or a response string whose
json.loads result is the given value (none when the string is not valid
JSON, which raises JSONDecodeError). -/
inductive LLMOutcome where
  | transportError (msg : String)
  | response (parsed : Option Json)

/-- A dictionary with a single error entry, as returned by the various
error paths of WebScraper.py. -/
def errObj (m : String) : Json := .obj [("error", .str m)]

/-- The fallback dictionary built at WebScraper.py lines 144-158: the input
text and default metadata, with last_verified set to the current date
(the today argument models time.strftime on the current date). -/
def defaultResult (text : List Char) (url today : String) : Json :=
  .obj [("text", .str (String.mk text)),
        ("metadata", .obj [
          ("source_url", .str url),
          ("title", .str "Unknown"),
          ("main_topics", .str ""),
          ("key_events", .str ""),
          ("author", .str "Unknown"),
          ("locations", .str ""),
          ("publication_date", .str ""),
          ("maritime_terms", .str ""),
          ("content_type", .str "maritime_article"),
          ("last_verified", .str today)])]

/-- WebScraper.process_with_llm (lines 88-162) after the prompt is built:
on a transport error the outer handler returns an error dictionary; on a
response the code parses it (JSONDecodeError falls through to the fallback),
then evaluates (text in result) and (metadata in result) left to right —
returning the parsed value itself when both hold, the fallback when a test
is false or parsing failed, and an error dictionary when the membership
test raises TypeError (which only the outer handler catches). -/
def process_with_llm (o : LLMOutcome) (text : List Char) (url today : String) : Json :=
  match o with
  | .transportError m => errObj m
  | .response none => defaultResult text url today
  | .response (some j) =>
    match pyIn "text" j with
    | .error m => errObj m
    | .ok false => defaultResult text url today
    | .ok true =>
      match pyIn "metadata" j with
      | .error m => errObj m
      | .ok false => defaultResult text url today
      | .ok true => j

/-! ## The scrape_url orchestrator -/

/-- The two browser-automation backends. -/
inductive Backend where
  | py
  | se
deriving DecidableEq

/-- A fetched page: the raw HTML string (page_source for Selenium,
page.content() for Pyppeteer) and its BeautifulSoup parse. -/
structure Page where
  raw : List Char
  dom : Html

/-- The scraper's mutable state: the self.browser field, plus whether a
browser process of each kind is actually running (self.browser keeps
pointing at a Selenium browser even after quit). -/
structure SState where
  browser : Option Backend
  pyOpen : Bool
  seOpen : Bool

/-- The initial state of a fresh WebScraper: no browser. -/
def initState : SState := ⟨none, false, false⟩

/-- Observable events of one scrape_url call, recorded in order. -/
inductive Ev where
  | launchPy
  | launchSe
  | navPy
  | navSe
  | quitSe
  | llmCall
deriving DecidableEq

/-- The outcomes that the external environment returns for the calls one
scrape_url invocation can make: the two browser launches, the two
navigations (error means the call raised, carrying the exception message;
ok carries the fetched page), the chat-completion call, and the current
date. -/
structure World where
  pyLaunch : Except String Unit
  seLaunch : Except String Unit
  pyNav : Except String Page
  seNav : Except String Page
  llm : LLMOutcome
  today : String

/-- Whether the try-body of the attempt loop executed a return (carrying
the returned dictionary) or raised (carrying the exception message). -/
inductive AOut where
  | ret (j : Json)
  | exn (m : String)

/-- The body of one attempt after the browser exists (WebScraper.py lines
178-196): the Selenium branch navigates, takes get_text of the whole soup
with no tag removal, returns an error dictionary under 200 characters and
otherwise feeds the raw page_source to process_with_llm; the Pyppeteer
branch navigates, runs extract_main_content and returns an error dictionary
on empty content, otherwise feeds the extracted text to process_with_llm. -/
def runBackend (w : World) (url : String) (st : SState) (b : Backend) :
    AOut × SState × List Ev :=
  match b with
  | .se =>
    match w.seNav with
    | .error m => (.exn m, st, [.navSe])
    | .ok page =>
      let text := bsGetText (allTexts page.dom)
      if text.length < 200 then
        (.ret (errObj "No content extracted"), st, [.navSe])
      else
        (.ret (process_with_llm w.llm page.raw url w.today), st, [.navSe, .llmCall])
  | .py =>
    match w.pyNav with
    | .error m => (.exn m, st, [.navPy])
    | .ok page =>
      let content := extract_main_content page.dom
      if content.isEmpty then
        (.ret (errObj "No content extracted"), st, [.navPy])
      else
        (.ret (process_with_llm w.llm content url w.today), st, [.navPy, .llmCall])

/-- One iteration of the attempt loop (WebScraper.py lines 171-196): if no
browser exists, launch Pyppeteer on attempt 0 and Selenium on any later
attempt (a failed launch raises); then dispatch on which browser the
self.browser field holds. -/
def attemptBody (w : World) (url : String) (st : SState) (attempt : Nat) :
    AOut × SState × List Ev :=
  match st.browser with
  | some b => runBackend w url st b
  | none =>
    if attempt == 0 then
      match w.pyLaunch with
      | .error m => (.exn m, st, [.launchPy])
      | .ok _ =>
        let st1 : SState := ⟨some .py, true, st.seOpen⟩
        let r := runBackend w url st1 .py
        (r.1, r.2.1, .launchPy :: r.2.2)
    else
      match w.seLaunch with
      | .error m => (.exn m, st, [.launchSe])
      | .ok _ =>
        let st1 : SState := ⟨some .se, st.pyOpen, true⟩
        let r := runBackend w url st1 .se
        (r.1, r.2.1, .launchSe :: r.2.2)

/-- The exception handler of the attempt loop (WebScraper.py lines
198-202): quit the browser if and only if it is the Selenium one; the
self.browser field itself is never cleared. -/
def exnCleanup (st : SState) : SState × List Ev :=
  match st.browser with
  | some .se => (⟨st.browser, st.pyOpen, false⟩, [.quitSe])
  | _ => (st, [])

/-- WebScraper.scrape_url (lines 165-209) on a fresh scraper, with the
retry loop (retry_count = 2) unrolled: run attempt 0; on a raise, run the
handler and attempt 1; on a second raise, run the handler and return an
error dictionary carrying the last exception message. The outer handler at
lines 207-209 is unreachable in this model because the loop body catches
every exception and browser.quit is modelled as non-raising. Returns the
result dictionary, the final scraper state and the event trace. -/
def scrape_url (w : World) (url : String) : Json × SState × List Ev :=
  let r0 := attemptBody w url initState 0
  match r0.1 with
  | .ret j => (j, r0.2.1, r0.2.2)
  | .exn _ =>
    let c0 := exnCleanup r0.2.1
    let r1 := attemptBody w url c0.1 1
    match r1.1 with
    | .ret j => (j, r1.2.1, r0.2.2 ++ c0.2 ++ r1.2.2)
    | .exn m1 =>
      let c1 := exnCleanup r1.2.1
      (errObj m1, c1.1, r0.2.2 ++ c0.2 ++ r1.2.2 ++ c1.2)

/-- WebScraper.cleanup (lines 54-61): if a browser is held, quit it when it
is the Selenium one and close it otherwise. -/
def cleanup (st : SState) : SState :=
  match st.browser with
  | some .se => ⟨st.browser, st.pyOpen, false⟩
  | some .py => ⟨st.browser, false, st.seOpen⟩
  | none => st

/-- A fresh single-attempt call that uses the Selenium backend: the
Selenium initialization followed by the Selenium branch of the attempt
body, each raise reported as an error dictionary. Reference point for the
fallback-transparency half of the spec. -/
def seleniumFresh (w : World) (url : String) : Json :=
  match w.seLaunch with
  | .error m => errObj m
  | .ok _ =>
    match w.seNav with
    | .error m => errObj m
    | .ok page =>
      let text := bsGetText (allTexts page.dom)
      if text.length < 200 then errObj "No content extracted"
      else process_with_llm w.llm page.raw url w.today

/-- The exception message of the first attempt, when the first attempt
raises: a failed Pyppeteer launch, or a failed Pyppeteer navigation. -/
def firstAttemptMsg (w : World) : Option String :=
  match w.pyLaunch with
  | .error m => some m
  | .ok _ =>
    match w.pyNav with
    | .error m => some m
    | .ok _ => none

/-- The exception message of the second attempt, when the first attempt
raised and the second also raises: after a failed Pyppeteer launch the
second attempt launches and navigates Selenium; after a failed Pyppeteer
navigation the second attempt re-navigates the still-open Pyppeteer
browser. -/
def secondAttemptMsg (w : World) : Option String :=
  match w.pyLaunch with
  | .error _ =>
    match w.seLaunch with
    | .error m => some m
    | .ok _ =>
      match w.seNav with
      | .error m => some m
      | .ok _ => none
  | .ok _ =>
    match w.pyNav with
    | .error m => some m
    | .ok _ => none

/-! ## Claims about the retry orchestrator -/

/-- C4: whenever both attempts of scrape_url fail, the call returns a
dictionary whose single entry is the error key carrying the last exception
message; the embedding is a total function, mirroring the fact that every
exception is caught inside scrape_url, so nothing propagates to the
caller. -/
theorem scrape_url_both_fail (w : World) (url : String) (a b : String)
    (h1 : firstAttemptMsg w = some a) (h2 : secondAttemptMsg w = some b) :
    (scrape_url w url).1 = errObj b := by
  rcases w with ⟨pl, sl, pn, sn, o, today⟩
  cases pl <;> cases sl <;> cases pn <;> cases sn <;>
    simp_all [firstAttemptMsg, secondAttemptMsg, scrape_url, attemptBody,
      runBackend, exnCleanup, initState]

/-- A world in which both browser launches fail. -/
def c4World : World :=
  ⟨.error "py launch down", .error "se launch down", .error "unused nav",
    .error "unused nav2", .response none, "2026-10-12"⟩

/-- Witness for C4: both attempts fail and the result is the error
dictionary carrying the second (last) exception message. -/
theorem scrape_url_both_fail_witness :
    firstAttemptMsg c4World = some "py launch down" ∧
      secondAttemptMsg c4World = some "se launch down" ∧
      (scrape_url c4World "u").1 = errObj "se launch down" :=
  ⟨rfl, rfl, scrape_url_both_fail c4World "u" _ _ rfl rfl⟩

/-- A page whose visible text comfortably clears the 200-character
threshold, served by the Selenium backend in the C1 counterexample. -/
def c1Page : Page := ⟨"long raw".toList, .elem "body" [.txt (List.replicate 250 'b')]⟩

/-- C1 counterexample world: Pyppeteer launches but its navigation raises,
while Selenium would launch, navigate and extract successfully. -/
def c1World : World :=
  ⟨.ok (), .ok (), .error "navigation timeout", .ok c1Page, .response none, "2026-10-12"⟩

/-- C1 counterexample: when the first (Pyppeteer) attempt raises during
navigation, the second attempt does NOT open Selenium — self.browser still
holds the Pyppeteer browser, so the launch at line 172 is skipped and the
same backend is retried — and the call returns the navigation error even
though a fresh single-attempt Selenium call on the same world succeeds. -/
theorem scrape_url_no_fallback_after_nav_failure :
    (scrape_url c1World "u").1 = errObj "navigation timeout" ∧
      Ev.launchSe ∉ (scrape_url c1World "u").2.2 ∧
      seleniumFresh c1World "u" =
        defaultResult "long raw".toList "u" "2026-10-12" :=
  ⟨rfl, by decide, rfl⟩

/-- C1 amended: backend selection depends on whether a browser session
exists, not on the attempt index alone. If the first attempt raises during
navigation (the Pyppeteer session is open), the second attempt reuses
Pyppeteer, Selenium is never opened, and a deterministic navigation failure
makes the call return that error; only when the first attempt fails during
the Pyppeteer launch itself (no session exists) does the second attempt
open and use Selenium, and then the result equals that of a fresh
single-attempt Selenium call. -/
theorem scrape_url_backend_selection (w : World) (url : String) :
    (∀ m, w.pyLaunch = .ok () → w.pyNav = .error m →
      (scrape_url w url).1 = errObj m ∧ Ev.launchSe ∉ (scrape_url w url).2.2) ∧
    (∀ m, w.pyLaunch = .error m →
      (scrape_url w url).1 = seleniumFresh w url) := by
  constructor
  · intro m h1 h2
    simp [scrape_url, attemptBody, runBackend, exnCleanup, initState, h1, h2]
  · intro m h
    rcases w with ⟨pl, sl, pn, sn, o, today⟩
    simp only at h
    subst h
    cases sl with
    | error m2 =>
      simp [scrape_url, attemptBody, runBackend, exnCleanup, initState, seleniumFresh]
    | ok u =>
      cases sn with
      | error m3 =>
        simp [scrape_url, attemptBody, runBackend, exnCleanup, initState, seleniumFresh]
      | ok page =>
        by_cases hc : (bsGetText (allTexts page.dom)).length < 200 <;>
          simp [scrape_url, attemptBody, runBackend, exnCleanup, initState,
            seleniumFresh, hc]

/-- A world in which the Pyppeteer launch itself fails and Selenium then
succeeds. -/
def c1bWorld : World :=
  ⟨.error "py launch broken", .ok (), .error "unreached", .ok c1Page,
    .response none, "2026-10-12"⟩

/-- Witness for the amended C1, exercising both halves: the
navigation-failure world keeps Pyppeteer and returns its error without
opening Selenium, and the launch-failure world falls back to Selenium with
the same result as a fresh single-attempt Selenium call. -/
theorem scrape_url_backend_selection_witness :
    ((scrape_url c1World "u").1 = errObj "navigation timeout" ∧
      Ev.launchSe ∉ (scrape_url c1World "u").2.2) ∧
      (scrape_url c1bWorld "u").1 = seleniumFresh c1bWorld "u" :=
  ⟨(scrape_url_backend_selection c1World "u").1 "navigation timeout" rfl rfl,
    (scrape_url_backend_selection c1bWorld "u").2 "py launch broken" rfl⟩

/-- A page whose visible text is far below the 200-character threshold. -/
def c2SmallPage : Page := ⟨"tiny".toList, .txt "tiny".toList⟩

/-- A page whose visible text clears the threshold, available to the
Selenium backend in the C2 counterexample world. -/
def c2GoodPage : Page := ⟨"good raw".toList, .elem "p" [.txt (List.replicate 250 'c')]⟩

/-- C2 counterexample world: Pyppeteer launches and navigates fine but the
page has sub-threshold content, while Selenium would succeed. -/
def c2World : World :=
  ⟨.ok (), .ok (), .ok c2SmallPage, .ok c2GoodPage, .response none, "2026-10-12"⟩

/-- C2 counterexample: empty extracted content on the first attempt is NOT
escalated like a navigation exception — line 191 returns the error
dictionary directly from inside the try block, so the call ends after a
single attempt (trace: one launch, one navigation) and Selenium is never
opened, even though it would have succeeded. -/
theorem scrape_url_empty_content_returns_immediately :
    (scrape_url c2World "u").1 = errObj "No content extracted" ∧
      (scrape_url c2World "u").2.2 = [Ev.launchPy, Ev.navPy] :=
  ⟨rfl, rfl⟩

/-- C2 amended: empty extracted content on the first (Pyppeteer) attempt
causes an immediate return of the error dictionary with no fallback-backend
retry; the trace stops at the first navigation and the fallback path is
reserved for exceptions. -/
theorem scrape_url_empty_content_immediate (w : World) (url : String) (page : Page)
    (h1 : w.pyLaunch = .ok ()) (h2 : w.pyNav = .ok page)
    (h3 : extract_main_content page.dom = []) :
    (scrape_url w url).1 = errObj "No content extracted" ∧
      (scrape_url w url).2.2 = [Ev.launchPy, Ev.navPy] := by
  simp [scrape_url, attemptBody, runBackend, initState, h1, h2, h3]

/-- Witness for the amended C2 at the concrete sub-threshold world. -/
theorem scrape_url_empty_content_immediate_witness :
    (scrape_url c2World "u").1 = errObj "No content extracted" ∧
      (scrape_url c2World "u").2.2 = [Ev.launchPy, Ev.navPy] :=
  scrape_url_empty_content_immediate c2World "u" c2SmallPage rfl rfl (by decide)

/-- A page with enough visible text for a successful Pyppeteer scrape. -/
def c3Page : Page := ⟨"raw3".toList, .elem "body" [.txt (List.replicate 220 'd')]⟩

/-- C3 counterexample world: everything succeeds on the first attempt. -/
def c3World : World :=
  ⟨.ok (), .ok (), .ok c3Page, .ok c3Page, .response none, "2026-10-12"⟩

/-- C3 counterexample: on the successful exit path the Pyppeteer browser
opened during the call is still running when scrape_url returns — the call
closes the page (line 192) but never closes the browser, and cleanup is a
separate method that scrape_url does not invoke. -/
theorem scrape_url_leaves_session_open :
    (scrape_url c3World "u").2.1.pyOpen = true ∧
      (scrape_url c3World "u").1 =
        defaultResult (List.replicate 220 'd') "u" "2026-10-12" :=
  ⟨rfl, rfl⟩

/-- Whether a launch outcome succeeded. -/
def launchOk : Except String Unit → Bool
  | .ok _ => true
  | .error _ => false

/-- C3 amended: scrape_url itself does not release the session on every
exit path. A Pyppeteer browser opened during the call is never closed by
scrape_url (it is running at return exactly when the launch succeeded);
only Selenium sessions are quit, inside the exception handler. Release is
the job of the separate cleanup method, and running cleanup on the state
scrape_url returns does close every session the scraper still holds. -/
theorem scrape_url_cleanup_releases (w : World) (url : String) :
    (scrape_url w url).2.1.pyOpen = launchOk w.pyLaunch ∧
      (cleanup (scrape_url w url).2.1).pyOpen = false ∧
      (cleanup (scrape_url w url).2.1).seOpen = false := by
  rcases w with ⟨pl, sl, pn, sn, o, today⟩
  cases pl with
  | ok u =>
    cases pn with
    | error m =>
      simp [scrape_url, attemptBody, runBackend, exnCleanup, initState, cleanup,
        launchOk]
    | ok page =>
      by_cases hc : (extract_main_content page.dom).isEmpty <;>
        simp [scrape_url, attemptBody, runBackend, exnCleanup, initState, cleanup,
          launchOk, hc]
  | error m =>
    cases sl with
    | error m2 =>
      simp [scrape_url, attemptBody, runBackend, exnCleanup, initState, cleanup,
        launchOk]
    | ok u =>
      cases sn with
      | error m3 =>
        simp [scrape_url, attemptBody, runBackend, exnCleanup, initState, cleanup,
          launchOk]
      | ok page =>
        by_cases hc : (bsGetText (allTexts page.dom)).length < 200 <;>
          simp [scrape_url, attemptBody, runBackend, exnCleanup, initState, cleanup,
            launchOk, hc]

/-! ## Claims about the summarizer -/

/-- C7 counterexample: a language-model response that is the valid JSON
number 5 parses and certainly lacks the top-level text and metadata keys,
yet process_with_llm does not return the default metadata: the membership
test at line 138 raises TypeError, which only the outer handler catches, so
the call returns an error dictionary with no metadata at all. -/
theorem process_with_llm_typeerror :
    process_with_llm (.response (some (.num 5))) "body".toList "u" "2026-10-12" =
      errObj "argument of type 'int' is not iterable" ∧
      lookupJ (process_with_llm (.response (some (.num 5))) "body".toList "u"
        "2026-10-12") "metadata" = none :=
  ⟨rfl, rfl⟩

/-- C7 amended: when the response is not parseable as JSON, or parses to a
JSON object lacking the top-level text key or the top-level metadata key,
process_with_llm returns the default result (title Unknown, author Unknown,
multi-valued fields empty, last_verified the current date); a response
parsing to a number, boolean or null instead raises TypeError in the
membership test and is reported as an error dictionary by the outer
handler. -/
theorem process_with_llm_fallback (text : List Char) (url today : String)
    (p : Option Json)
    (h : p = none ∨ ∃ kvs, p = some (Json.obj kvs) ∧
      (kvs.any (fun kv => kv.1 == "text") = false ∨
       kvs.any (fun kv => kv.1 == "metadata") = false)) :
    process_with_llm (.response p) text url today = defaultResult text url today := by
  rcases h with h | ⟨kvs, hp, hk⟩
  · rw [h]; rfl
  · subst hp
    rcases hk with hk | hk
    · simp [process_with_llm, pyIn, hk]
    · cases ht : kvs.any (fun kv => kv.1 == "text") <;>
        simp [process_with_llm, pyIn, ht, hk]

/-- Witness for the amended C7: the empty JSON object lacks both keys and
yields the default result. -/
theorem process_with_llm_fallback_witness :
    process_with_llm (.response (some (.obj []))) "body2".toList "u" "2026-10-12" =
      defaultResult "body2".toList "u" "2026-10-12" :=
  process_with_llm_fallback "body2".toList "u" "2026-10-12" (some (.obj []))
    (.inr ⟨[], rfl, .inl rfl⟩)

/-- An accepted language-model response whose metadata omits last_verified. -/
def c8Json : Json :=
  .obj [("text", .str "t"), ("metadata", .obj [("title", .str "T")])]

/-- C8 counterexample: a valid JSON response with top-level text and
metadata keys whose metadata omits last_verified is returned verbatim by
process_with_llm (line 139), so the returned metadata still has no
last_verified — it is not set to the current date. -/
theorem process_with_llm_no_last_verified_fill :
    process_with_llm (.response (some c8Json)) "orig".toList "u" "2026-10-12" =
      c8Json ∧
      (match lookupJ c8Json "metadata" with
       | some m => lookupJ m "last_verified"
       | none => none) = none :=
  ⟨rfl, rfl⟩

/-- C8 amended: an accepted response (a JSON object with top-level text and
metadata keys) is returned unchanged, so a missing last_verified stays
missing; last_verified is set to the current date only in the fallback
result used when parsing fails or a top-level key is absent. -/
theorem process_with_llm_accepted_verbatim (text : List Char) (url today : String)
    (kvs : List (String × Json))
    (h1 : kvs.any (fun kv => kv.1 == "text") = true)
    (h2 : kvs.any (fun kv => kv.1 == "metadata") = true) :
    process_with_llm (.response (some (.obj kvs))) text url today = .obj kvs ∧
      (match lookupJ (defaultResult text url today) "metadata" with
       | some m => lookupJ m "last_verified"
       | none => none) = some (.str today) := by
  constructor
  · simp [process_with_llm, pyIn, h1, h2]
  · rfl

/-- Witness for the amended C8 at a concrete accepted response. -/
theorem process_with_llm_accepted_verbatim_witness :
    process_with_llm (.response (some (.obj [("text", .str "x"),
        ("metadata", .obj [])]))) "orig2".toList "u" "2026-10-12" =
      .obj [("text", .str "x"), ("metadata", .obj [])] ∧
      (match lookupJ (defaultResult "orig2".toList "u" "2026-10-12") "metadata" with
       | some m => lookupJ m "last_verified"
       | none => none) = some (.str "2026-10-12") :=
  process_with_llm_accepted_verbatim "orig2".toList "u" "2026-10-12"
    [("text", .str "x"), ("metadata", .obj [])] rfl rfl

/-- An accepted language-model response that contains both a text and an
error key. -/
def c9Json : Json :=
  .obj [("text", .str "a"), ("metadata", .obj []), ("error", .str "boom")]

/-- A page with enough visible text for a successful scrape in the C9
counterexample world. -/
def c9Page : Page := ⟨"raw9".toList, .elem "body" [.txt (List.replicate 210 'e')]⟩

/-- C9 counterexample world: a successful Pyppeteer scrape whose
language-model response is an accepted object carrying an error key. -/
def c9World : World :=
  ⟨.ok (), .ok (), .ok c9Page, .ok c9Page, .response (some c9Json), "2026-10-12"⟩

/-- C9 counterexample: the dictionary scrape_url returns can contain both a
text key and an error key, because an accepted language-model JSON object
is passed through verbatim (line 139) without checking for an error key. -/
theorem scrape_url_both_keys :
    hasKeyB (scrape_url c9World "u").1 "text" = true ∧
      hasKeyB (scrape_url c9World "u").1 "error" = true :=
  ⟨rfl, rfl⟩

/-- Helper for the amended C9: every process_with_llm result lacks one of
the two keys, provided no accepted response object (one that is a JSON
object carrying both the text and the metadata keys) itself has an error
key. Unparseable responses, rejected objects, transport errors and
non-object pass-through values all satisfy the invariant outright. -/
theorem process_with_llm_tagged (o : LLMOutcome) (text : List Char)
    (url today : String)
    (h : ∀ j, o = .response (some j) → hasKeyB j "text" = true →
      hasKeyB j "metadata" = true → hasKeyB j "error" = false) :
    (hasKeyB (process_with_llm o text url today) "text" &&
      hasKeyB (process_with_llm o text url today) "error") = false := by
  match o with
  | .transportError m => simp [process_with_llm, errObj, hasKeyB]
  | .response none => simp [process_with_llm, defaultResult, hasKeyB]
  | .response (some j) =>
    dsimp only [process_with_llm]
    match h1 : pyIn "text" j with
    | .error m => simp [errObj, hasKeyB]
    | .ok false => simp [defaultResult, hasKeyB]
    | .ok true =>
      match h2 : pyIn "metadata" j with
      | .error m => simp [errObj, hasKeyB]
      | .ok false => simp [defaultResult, hasKeyB]
      | .ok true =>
        cases j with
        | obj kvs =>
          have htext : hasKeyB (.obj kvs) "text" = true := by
            simpa [pyIn, hasKeyB] using h1
          have hmeta : hasKeyB (.obj kvs) "metadata" = true := by
            simpa [pyIn, hasKeyB] using h2
          have hj := h _ rfl htext hmeta
          simp [hj]
        | str s => simp [hasKeyB]
        | arr es => simp [hasKeyB]
        | num n => simp [pyIn] at h1
        | bool b => simp [pyIn] at h1
        | null => simp [pyIn] at h1

/-- Every dictionary scrape_url returns is either an error-only dictionary
or the result of process_with_llm on the world's response. -/
theorem scrape_url_result_shape (w : World) (url : String) :
    (∃ m, (scrape_url w url).1 = errObj m) ∨
    (∃ t, (scrape_url w url).1 = process_with_llm w.llm t url w.today) := by
  rcases w with ⟨pl, sl, pn, sn, o, today⟩
  cases pl with
  | ok u =>
    cases pn with
    | error m => exact .inl ⟨m, rfl⟩
    | ok page =>
      by_cases hc : (extract_main_content page.dom).isEmpty
      · refine .inl ⟨"No content extracted", ?_⟩
        simp [scrape_url, attemptBody, runBackend, initState, hc]
      · refine .inr ⟨extract_main_content page.dom, ?_⟩
        simp [scrape_url, attemptBody, runBackend, initState, hc]
  | error m =>
    cases sl with
    | error m2 => exact .inl ⟨m2, rfl⟩
    | ok u =>
      cases sn with
      | error m3 => exact .inl ⟨m3, rfl⟩
      | ok page =>
        by_cases hc : (bsGetText (allTexts page.dom)).length < 200
        · refine .inl ⟨"No content extracted", ?_⟩
          simp [scrape_url, attemptBody, runBackend, exnCleanup, initState, hc]
        · refine .inr ⟨page.raw, ?_⟩
          simp [scrape_url, attemptBody, runBackend, exnCleanup, initState, hc]

/-- C9 amended: the tagged-union invariant holds for every language-model
response except one case: all dictionaries built by scrape_url's own paths
are either error-only or text-and-metadata dictionaries, and an accepted
response object is passed through verbatim, so only an accepted object
(one with both the text and the metadata keys) that itself carries an
error key can put text and error together. Formally: whenever every such
accepted object in the world's response lacks the error key — rejected
responses, unparseable responses and non-object values are unconstrained —
the result never holds both keys. -/
theorem scrape_url_tagged_union (w : World) (url : String)
    (h : ∀ j, w.llm = .response (some j) → hasKeyB j "text" = true →
      hasKeyB j "metadata" = true → hasKeyB j "error" = false) :
    (hasKeyB (scrape_url w url).1 "text" &&
      hasKeyB (scrape_url w url).1 "error") = false := by
  rcases scrape_url_result_shape w url with ⟨m, hm⟩ | ⟨t, ht⟩
  · rw [hm]; simp [errObj, hasKeyB]
  · rw [ht]; exact process_with_llm_tagged w.llm t url w.today h

/-- C9 amended witness world: a successful scrape whose language-model
response parses to an object with an error key but no text key — the code
rejects it and returns the fallback dictionary, so the invariant holds and
the hypothesis (which constrains only accepted objects) is satisfied. -/
def c9bWorld : World :=
  ⟨.ok (), .ok (), .ok c9Page, .ok c9Page,
    .response (some (.obj [("error", .str "boom")])), "2026-10-12"⟩

/-- Witness for the amended C9 at a world whose response object carries an
error key yet is rejected for lacking the text key. -/
theorem scrape_url_tagged_union_witness :
    (hasKeyB (scrape_url c9bWorld "u").1 "text" &&
      hasKeyB (scrape_url c9bWorld "u").1 "error") = false :=
  scrape_url_tagged_union c9bWorld "u"
    (fun j hj htext _ => by
      simp [c9bWorld] at hj
      subst hj
      simp [hasKeyB] at htext)

/-! ## The create-document route (backend/routes.py) -/

/-- The hard-coded document body at routes.py line 39. -/
def DOC4 : String := "THIS IS THE CONTENT OF DOCUMENT 4"

/-- A record handed to store.store_documents (routes.py line 63). -/
structure StoredDoc where
  text : String
  title : String
  source_url : String

/-- Observable external calls of one create_document request. The scraper
constructor exists because WebScraper.scrape_url is a call the route could
make; the route as written never emits it (line 41 is commented out). -/
inductive REv where
  | scrapeCall (url : String)
  | embedCall (text : String)
  | storeCall (docs : List StoredDoc)

/-- The outcomes of the external calls create_document can make: the
embedding request (error models an OpenAIError; ok carries the vector,
whose numeric components are abstracted as integers and never inspected
beyond emptiness) and the vector-store insert (ok carries the new ids). -/
structure RouteWorld where
  embed : Except String (List Int)
  store : Except String (List String)

/-- An HTTP error response raised by the route. -/
inductive RouteErr where
  | badRequest (detail : String)
  | serverError (detail : String)

/-- The success payload of create_document (routes.py lines 68-73). -/
structure RouteResponse where
  message : String
  document_ids : List String
  content : String
  embPrefix : List Int

/-- Python string slice s[:n]. -/
def takeStr (n : Nat) (s : String) : String := ⟨s.toList.take n⟩

/-- routes.create_document (lines 30-79): reject an empty url with 400,
take the hard-coded text in place of the commented-out scraper call,
request an embedding (an OpenAIError or an empty vector becomes a 500),
store one document built from the constant text and the url, and return
the success payload. Returns the HTTP outcome and the trace of external
calls. -/
def create_document (rw : RouteWorld) (url : String) :
    Except RouteErr RouteResponse × List REv :=
  if url = "" then (.error (.badRequest "URL is required"), [])
  else
    let text := DOC4
    if text = "" then (.error (.badRequest "No text content extracted"), [])
    else
      match rw.embed with
      | .error _ =>
        (.error (.serverError "Error generating embeddings"), [.embedCall text])
      | .ok emb =>
        if emb.isEmpty then
          (.error (.serverError "Failed to generate embeddings"), [.embedCall text])
        else
          match rw.store with
          | .error e =>
            (.error (.serverError e),
              [.embedCall text, .storeCall [⟨text, "Scraped Document", url⟩]])
          | .ok ids =>
            (.ok ⟨"Document created and stored successfully!", ids,
                takeStr 200 text, emb.take 10⟩,
              [.embedCall text, .storeCall [⟨text, "Scraped Document", url⟩]])

/-- C10: for every non-empty url, create_document never invokes the
scraper, the text it sends to the embedding provider is always the constant
document body, and every document batch it stores has exactly that constant
text — the stored content is independent of the url input. -/
theorem create_document_constant_text (rw : RouteWorld) (url : String)
    (h : url ≠ "") :
    (∀ u, REv.scrapeCall u ∉ (create_document rw url).2) ∧
    (∀ t, REv.embedCall t ∈ (create_document rw url).2 → t = DOC4) ∧
    (∀ docs, REv.storeCall docs ∈ (create_document rw url).2 →
      docs.map StoredDoc.text = [DOC4]) := by
  unfold create_document
  rw [if_neg h, if_neg (by decide : ¬(DOC4 = ""))]
  rcases rw with ⟨emb, store⟩
  cases emb with
  | error m => simp
  | ok v =>
    by_cases hv : v.isEmpty <;> cases store <;> simp [hv]

/-- Witness for C10 at a concrete url and a concrete world where embedding
and store both succeed. -/
theorem create_document_constant_text_witness :
    ("https://example.org/a" ≠ "" ∧
      (∀ u, REv.scrapeCall u ∉
        (create_document ⟨.ok [1, 2], .ok ["id1"]⟩ "https://example.org/a").2) ∧
      (∀ t, REv.embedCall t ∈
          (create_document ⟨.ok [1, 2], .ok ["id1"]⟩ "https://example.org/a").2 →
        t = DOC4) ∧
      (∀ docs, REv.storeCall docs ∈
          (create_document ⟨.ok [1, 2], .ok ["id1"]⟩ "https://example.org/a").2 →
        docs.map StoredDoc.text = [DOC4])) :=
  ⟨by decide,
    create_document_constant_text ⟨.ok [1, 2], .ok ["id1"]⟩ "https://example.org/a"
      (by decide)⟩

end Maritime
